import Mathlib

/-!
Verification of the StillWaters conversation session manager (client chat
store) and its backend proxy, shallowly embedded from the JavaScript
sources `src/store/useChatStore.js` (the chat store) and
`backend/index.js` (the Express proxy).

State is modelled explicitly: the zustand store becomes a `ChatState`
record, each store operation becomes a pure function from state to state,
and the external effects (Supabase inserts/updates, the proxy HTTP call)
are recorded as an explicit `Effect` list so that absence of persistence
or network activity is provable.  Timestamps (`Date.now()`) are passed in
as natural-number parameters; the outcome of the proxy round trip is
passed in as an `Except` value.
-/

namespace StillWaters

/-- Message sender tag, `'user' | 'bot'` in the source. -/
inductive Sender
  | user
  | bot
deriving DecidableEq, Repr

/-- A scripture citation as produced by the backend: `reference`, `text`,
`translation`.  The client reads `scripture.translation || ''`, so the
field is optional here. -/
structure Scripture where
  reference : String
  text : String
  translation : Option String
deriving DecidableEq, Repr

/-- One element of the backend response's `interpretations` array.  The
backend (both mock object and prompt template) emits `tradition` and
`view`; a `scriptures` array is absent from both, so it is optional. -/
structure Interpretation where
  tradition : String
  view : String
  scriptures : Option (List Scripture) := none
deriving DecidableEq, Repr

/-- The structured JSON body exchanged with the proxy (`/api/chat`). -/
structure ChatResponse where
  question : Option String := none
  primary_scripture : Option Scripture := none
  interpretations : List Interpretation := []
  context : Option String := none
  application : Option String := none
  related_verses : List String := []
deriving DecidableEq, Repr

/-- Metadata stored on a chat message's `data` field: either the whole
backend response (on the explanation message) or the `\x7b isVerse: true \x7d`
marker (on the verse message). -/
inductive MsgData
  | response (r : ChatResponse)
  | isVerse
deriving DecidableEq, Repr

/-- A chat message, `\x7b id, text, sender, timestamp, data \x7d` in the source. -/
structure Message where
  id : String
  text : String
  sender : Sender
  timestamp : Nat
  data : Option MsgData := none
deriving DecidableEq, Repr

/-- A conversation row (`conversations` table): id, owner, summary. -/
structure Conversation where
  id : Nat
  user_id : Nat
  summary : String
deriving DecidableEq, Repr

/-- The zustand chat-store state: `messages`, `isLoading`,
`conversationId`, `conversations`. -/
structure ChatState where
  messages : List Message
  isLoading : Bool
  conversationId : Option Nat
  conversations : List Conversation
deriving DecidableEq, Repr

/-- External side effects performed by the store, recorded explicitly:
Supabase row inserts, the summary update, and the proxy call. -/
inductive Effect
  | insertConversation (conv : Conversation)
  | insertMessage (conversation_id : Nat) (sender : Sender) (text : String)
      (metadata : Option MsgData)
  | proxyCall (question : String)
  | updateSummary (conversation_id : Nat) (summary : String)
deriving DecidableEq, Repr

/-- `addMessage(message)`: append the message to local state, then persist
it; when no conversation exists yet, `initConversation` first inserts a
`conversations` row with the placeholder summary `'New Conversation'`,
stores its id, and prepends it to the local list.  `user` is the signed-in
user id (persistence is skipped when absent) and `newConvId` the id the
database would assign to a freshly created conversation. -/
def addMessage (user : Option Nat) (newConvId : Nat) (message : Message)
    (st : ChatState) : ChatState × List Effect :=
  let st1 : ChatState := { st with messages := st.messages ++ [message] }
  match user with
  | none => (st1, [])
  | some uid =>
    match st1.conversationId with
    | some chatId =>
      (st1, [Effect.insertMessage chatId message.sender message.text message.data])
    | none =>
      let conv : Conversation := { id := newConvId, user_id := uid, summary := "New Conversation" }
      ({ st1 with conversationId := some newConvId, conversations := conv :: st1.conversations },
       [Effect.insertConversation conv,
        Effect.insertMessage newConvId message.sender message.text message.data])

/-- JavaScript's `String.prototype.trim`: strip leading and trailing
whitespace.  (Defined structurally so that it evaluates; `String.trim`
from the core library is extensionally the same operation.) -/
def trimmed (s : String) : String :=
  String.mk (((s.data.dropWhile Char.isWhitespace).reverse.dropWhile
    Char.isWhitespace).reverse)

/-- The user message built at the top of `sendUserMessage`. -/
def mkUserMessage (t0 : Nat) (text : String) : Message :=
  { id := toString t0, text := trimmed text, sender := Sender.user, timestamp := t0 }

/-- The apologetic fallback text appended when the proxy round trip fails. -/
def fallbackText : String :=
  "I\x27m having trouble connecting to the waters right now. Please try again later."

/-- The fallback bot message built in the `catch` block (no `data` field). -/
def mkErrorMessage (t1 : Nat) : Message :=
  { id := toString (t1 + 1), text := fallbackText, sender := Sender.bot, timestamp := t1 }

/-- The explanation bot message: text is the first interpretation's `view`,
`data` carries the whole response. -/
def mkBotMessage (t1 : Nat) (response : ChatResponse) (interp : Interpretation) : Message :=
  { id := toString (t1 + 1), text := interp.view, sender := Sender.bot, timestamp := t1,
    data := some (MsgData.response response) }

/-- The scripture `sendUserMessage` quotes: the first element of the first
interpretation's `scriptures` when that array is present and non-empty,
else the top-level `primary_scripture` (the legacy/mock fallback). -/
def chosenScripture (response : ChatResponse) : Option Scripture :=
  match response.interpretations with
  | [] => response.primary_scripture
  | interp :: _ =>
    match interp.scriptures with
    | some (s :: _) => some s
    | _ => response.primary_scripture

/-- The verse message text: the quoted verse, a blank line, and the
attribution line with reference and translation. -/
def verseText (s : Scripture) : String :=
  "\"" ++ s.text ++ "\"\n\n— " ++ s.reference ++ " (" ++ s.translation.getD "" ++ ")"

/-- The verse bot message: timestamp synthesized 100ms later, `data`
marking it as a verse. -/
def mkVerseMessage (t1 : Nat) (s : Scripture) : Message :=
  { id := toString (t1 + 2), text := verseText s, sender := Sender.bot,
    timestamp := t1 + 100, data := some MsgData.isVerse }

/-- The verse messages appended on success: one when a scripture was
chosen, none otherwise. -/
def verseList (t1 : Nat) (response : ChatResponse) : List Message :=
  match chosenScripture response with
  | none => []
  | some s => [mkVerseMessage t1 s]

/-- The auto-generated conversation title: `text` truncated to its first
30 characters plus `'...'` when longer than 30, else `text` itself. -/
def newTitle (text : String) : String :=
  if text.length > 30 then String.mk (text.data.take 30) ++ "..." else text

/-- Update the summary of the first conversation with the given id, as the
source's `updatedConversations[conversationIndex] = ...` does. -/
def renameFirst (cid : Nat) (title : String) : List Conversation → List Conversation
  | [] => []
  | c :: rest =>
    if c.id == cid then { c with summary := title } :: rest
    else c :: renameFirst cid title rest

/-- Step 6 of `sendUserMessage`: when a current conversation exists and its
summary still equals the placeholder `'New Conversation'`, rename it to
the truncated question text (in the database and locally). -/
def updateSummaryStep (text : String) (st : ChatState) : ChatState × List Effect :=
  match st.conversationId with
  | none => (st, [])
  | some cid =>
    match st.conversations.find? (fun c => c.id == cid) with
    | none => (st, [])
    | some conversation =>
      if conversation.summary = "New Conversation" then
        ({ st with conversations := renameFirst cid (newTitle text) st.conversations },
         [Effect.updateSummary cid (newTitle text)])
      else (st, [])

/-- `sendUserMessage(text)`: no-op for blank text; otherwise append the
user message (persisting it), set loading, call the proxy, and on success
append the explanation message, possibly a verse message, and run the
summary-rename step; on failure (or a response whose `interpretations[0]`
is missing, which throws before any bot message is appended) append the
single fallback message.  The loading flag is cleared in the `finally`
block of every branch.  `t0` is `Date.now()` at send time, `t1` at
response time, `proxyResult` the outcome of the proxy round trip. -/
def sendUserMessage (user : Option Nat) (newConvId : Nat) (t0 t1 : Nat)
    (proxyResult : Except Unit ChatResponse) (text : String) (st : ChatState) :
    ChatState × List Effect :=
  if (trimmed text).isEmpty then (st, [])
  else
    let userMessage := mkUserMessage t0 text
    let p1 := addMessage user newConvId userMessage st
    let st1 : ChatState := { p1.1 with isLoading := true }
    let callEffect := [Effect.proxyCall userMessage.text]
    match proxyResult with
    | Except.error _ =>
      let p2 := addMessage user newConvId (mkErrorMessage t1) st1
      ({ p2.1 with isLoading := false }, p1.2 ++ callEffect ++ p2.2)
    | Except.ok response =>
      match response.interpretations with
      | [] =>
        let p2 := addMessage user newConvId (mkErrorMessage t1) st1
        ({ p2.1 with isLoading := false }, p1.2 ++ callEffect ++ p2.2)
      | interp :: _ =>
        let p2 := addMessage user newConvId (mkBotMessage t1 response interp) st1
        let p3 :=
          match chosenScripture response with
          | none => (p2.1, ([] : List Effect))
          | some s => addMessage user newConvId (mkVerseMessage t1 s) p2.1
        let p4 := updateSummaryStep text p3.1
        ({ p4.1 with isLoading := false }, p1.2 ++ callEffect ++ p2.2 ++ p3.2 ++ p4.2)

/-- `deleteConversation(conversationId)`: remove the row (and locally the
list entry); when the deleted conversation is the active one, also clear
the local message list and the active conversation id. -/
def deleteConversation (conversationId : Nat) (st : ChatState) : ChatState :=
  { st with
    conversations := st.conversations.filter (fun c => c.id != conversationId),
    messages := if st.conversationId = some conversationId then [] else st.messages,
    conversationId :=
      if st.conversationId = some conversationId then none else st.conversationId }

/-- A persisted row of the `messages` table. -/
structure DBMessage where
  id : String
  conversation_id : Nat
  sender : Sender
  text : String
  metadata : Option MsgData
  created_at : Nat
deriving DecidableEq, Repr

/-- Ordering of persisted messages by creation time. -/
def createdLE (a b : DBMessage) : Prop := a.created_at ≤ b.created_at

instance : DecidableRel createdLE := fun a b => Nat.decLe a.created_at b.created_at

instance : IsTotal DBMessage createdLE := ⟨fun a b => Nat.le_total a.created_at b.created_at⟩

instance : IsTrans DBMessage createdLE := ⟨fun _ _ _ h h2 => Nat.le_trans h h2⟩

/-- The Supabase query in `loadConversation`: all rows of `messages` with
the given `conversation_id`, ordered by `created_at` ascending. -/
def queryMessages (db : List DBMessage) (conversationId : Nat) : List DBMessage :=
  List.insertionSort createdLE (db.filter (fun m => m.conversation_id == conversationId))

/-- The row-to-UI transformation in `loadConversation`. -/
def formatMessage (m : DBMessage) : Message :=
  { id := m.id, text := m.text, sender := m.sender, timestamp := m.created_at,
    data := m.metadata }

/-- The synchronous first step of `loadConversation`:
`set(\x7b isLoading: true, conversationId, messages: [] \x7d)`. -/
def loadConversationStart (conversationId : Nat) (st : ChatState) : ChatState :=
  { st with isLoading := true, conversationId := some conversationId, messages := [] }

/-- `loadConversation(conversationId)`: reset the session, fetch the
persisted messages for that conversation ordered ascending by creation
time, install them, and clear the loading flag. -/
def loadConversation (db : List DBMessage) (conversationId : Nat) (st : ChatState) : ChatState :=
  let st1 := loadConversationStart conversationId st
  let st2 := { st1 with messages := (queryMessages db conversationId).map formatMessage }
  { st2 with isLoading := false }

/-! The backend proxy (`backend/index.js`). -/

/-- The rate-limit window: `60 * 60 * 1000` milliseconds. -/
def windowMs : Nat := 60 * 60 * 1000

/-- The rate-limit maximum: 10 requests per caller per window. -/
def rateMax : Nat := 10

/-- The configured rate-limit rejection message. -/
def rateLimitMessage : String :=
  "Too many requests from this IP, please try again after an hour"

/-- The body of a proxy HTTP response: a structured success payload or an
error object `\x7b error: string \x7d`. -/
inductive ChatBody
  | success (r : ChatResponse)
  | failure (error : String)
deriving DecidableEq, Repr

/-- A proxy HTTP response: status code and JSON body. -/
structure HttpResponse where
  status : Nat
  body : ChatBody
deriving DecidableEq, Repr

/-- The placeholder credential the backend treats as absent. -/
def placeholderKey : String := "YOUR_GEMINI_API_KEY_HERE"

/-- The canned mock response served when no upstream credential is
configured, transcribed from the backend's mock object. -/
def mockResponse (question : String) : ChatResponse :=
  { question := some question,
    primary_scripture := some
      { reference := "Psalm 23:2",
        text := "He makes me lie down in green pastures, he leads me beside quiet waters.",
        translation := some "NIV" },
    interpretations :=
      [{ tradition := "General",
         view := "This verse speaks to the peace and restoration that God provides. \x27Green pastures\x27 symbolize abundance and rest, while \x27quiet waters\x27 represent a state of calm and refreshment for the soul.",
         scriptures := none }],
    context := some "David, the shepherd king, writes this psalm expressing trust in God\x27s provision and protection.",
    application := some "Take a moment today to pause and allow God to restore your soul, trusting that He knows what you need for rest.",
    related_verses := ["Philippians 4:7", "Matthew 11:28"] }

/-- One `POST /api/chat` request.  `hits` is the caller's prior request
count inside the current rate-limit window (the limiter middleware runs
before the handler and rejects once the incremented count exceeds
`rateMax`); `upstream` is the outcome of the Gemini call (only consulted
on the live path).  The returned flag records whether the upstream model
was invoked. -/
def handleChat (apiKey : Option String) (hits : Nat) (question : String)
    (upstream : Except Unit ChatResponse) : HttpResponse × Bool :=
  if rateMax ≤ hits then
    ({ status := 429, body := ChatBody.failure rateLimitMessage }, false)
  else if apiKey = none ∨ apiKey = some placeholderKey then
    ({ status := 200, body := ChatBody.success (mockResponse question) }, false)
  else
    match upstream with
    | Except.ok r => ({ status := 200, body := ChatBody.success r }, true)
    | Except.error _ =>
      ({ status := 500, body := ChatBody.failure "Failed to fetch wisdom from the waters." }, true)

/-- Process a sequence of same-caller requests inside one rate-limit
window, threading the hit counter. -/
def runRequests (apiKey : Option String) (upstream : Except Unit ChatResponse) :
    List String → Nat → List (HttpResponse × Bool)
  | [], _ => []
  | q :: qs, hits =>
    handleChat apiKey hits q upstream :: runRequests apiKey upstream qs (hits + 1)

/-- Number of responses in a batch that were actually served (not
rate-limit rejections). -/
def servedCount (rs : List (HttpResponse × Bool)) : Nat :=
  (rs.filter (fun p => p.1.status != 429)).length

/-- Modelled from the spec: the documented success schema of the proxy
(section 6 of the design) requires each element of `interpretations` to
carry its own `scriptures` list of citations (each with a `translation`
string).  This predicate captures the part of that schema that goes
beyond the fields the embedding's types already force. -/
def specSuccessShape (r : ChatResponse) : Prop :=
  ∀ i ∈ r.interpretations,
    ∃ sl, i.scriptures = some sl ∧ ∀ s ∈ sl, s.translation.isSome = true

instance (r : ChatResponse) : Decidable (specSuccessShape r) := by
  unfold specSuccessShape
  refine List.decidableBAll _ _

/-- The shape the live path's prompt template actually mandates: an echoed
`question`, a top-level `primary_scripture` with a translation, at least
one interpretation (each with `tradition` and `view`), `context`, and
`application`. -/
def promptTemplateShape (r : ChatResponse) : Bool :=
  r.question.isSome &&
  (match r.primary_scripture with
   | some s => s.translation.isSome
   | none => false) &&
  !r.interpretations.isEmpty &&
  r.context.isSome &&
  r.application.isSome

/-- The summary of the currently active conversation, read the way
`sendUserMessage` step 6 reads it (first list entry with the active id). -/
def activeSummary (st : ChatState) : Option String :=
  match st.conversationId with
  | none => none
  | some cid => (st.conversations.find? (fun c => c.id == cid)).map Conversation.summary

/-- A fresh, signed-out-free empty session state. -/
def emptyState : ChatState :=
  { messages := [], isLoading := false, conversationId := none, conversations := [] }

/-- A minimal well-formed proxy response with one interpretation and no
scripture anywhere. -/
def sampleResponse : ChatResponse :=
  { interpretations := [{ tradition := "General", view := "An answer." }] }

/-- The first interpretation of `sampleResponse`. -/
def sampleInterp : Interpretation :=
  { tradition := "General", view := "An answer." }

/-- A response whose first interpretation has an empty `scriptures` array
but which carries a top-level `primary_scripture` (the legacy/mock shape). -/
def legacyResponse : ChatResponse :=
  { interpretations := [{ tradition := "General", view := "An answer.", scriptures := some [] }],
    primary_scripture := some
      { reference := "Psalm 23:1", text := "The Lord is my shepherd", translation := some "NIV" } }

/-- The scripture carried by `legacyResponse`. -/
def legacyScripture : Scripture :=
  { reference := "Psalm 23:1", text := "The Lord is my shepherd", translation := some "NIV" }

/-- The first interpretation of `legacyResponse`. -/
def legacyInterp : Interpretation :=
  { tradition := "General", view := "An answer.", scriptures := some [] }

/-- A populated session state with an active conversation, for exercising
`deleteConversation`. -/
def delState : ChatState :=
  { messages := [{ id := "1", text := "hi", sender := Sender.user, timestamp := 0 }],
    isLoading := false, conversationId := some 1,
    conversations := [{ id := 1, user_id := 7, summary := "First" },
      { id := 2, user_id := 7, summary := "Second" }] }

/-- A session state sitting on a freshly created conversation (placeholder
summary), as left behind by `initConversation`. -/
def placeholderState : ChatState :=
  { messages := [], isLoading := false, conversationId := some 1,
    conversations := [{ id := 1, user_id := 7, summary := "New Conversation" }] }

/-- State after sending the literal text `"New Conversation"` as the first
message on `placeholderState`. -/
def degenerateAfterFirst : ChatState :=
  (sendUserMessage (some 7) 1 0 1 (Except.ok sampleResponse) "New Conversation"
    placeholderState).1

/-- State after a second send (text `"hello"`) on `degenerateAfterFirst`. -/
def degenerateAfterSecond : ChatState :=
  (sendUserMessage (some 7) 1 2 3 (Except.ok sampleResponse) "hello" degenerateAfterFirst).1

/-! Helper lemmas about the store operations. -/

theorem addMessage_fst_messages (user : Option Nat) (ncid : Nat) (m : Message)
    (st : ChatState) : (addMessage user ncid m st).1.messages = st.messages ++ [m] := by
  unfold addMessage
  cases user with
  | none => rfl
  | some uid => cases h : st.conversationId <;> simp [h]

theorem addMessage_fst_of_some (user : Option Nat) (ncid : Nat) (m : Message)
    (st : ChatState) (cid : Nat) (h : st.conversationId = some cid) :
    (addMessage user ncid m st).1 = { st with messages := st.messages ++ [m] } := by
  unfold addMessage
  cases user with
  | none => rfl
  | some uid => simp [h]

theorem updateSummaryStep_fst_messages (text : String) (st : ChatState) :
    (updateSummaryStep text st).1.messages = st.messages := by
  unfold updateSummaryStep
  cases st.conversationId with
  | none => rfl
  | some cid =>
    cases h : st.conversations.find? (fun c => c.id == cid) with
    | none => simp [h]
    | some conv => by_cases hs : conv.summary = "New Conversation" <;> simp [h, hs]

theorem updateSummaryStep_fst_isLoading (text : String) (st : ChatState) :
    (updateSummaryStep text st).1.isLoading = st.isLoading := by
  unfold updateSummaryStep
  cases st.conversationId with
  | none => rfl
  | some cid =>
    cases h : st.conversations.find? (fun c => c.id == cid) with
    | none => simp [h]
    | some conv => by_cases hs : conv.summary = "New Conversation" <;> simp [h, hs]

theorem updateSummaryStep_fst_conversationId (text : String) (st : ChatState) :
    (updateSummaryStep text st).1.conversationId = st.conversationId := by
  unfold updateSummaryStep
  cases hc : st.conversationId with
  | none => simp [hc]
  | some cid =>
    cases h : st.conversations.find? (fun c => c.id == cid) with
    | none => simp [h, hc]
    | some conv => by_cases hs : conv.summary = "New Conversation" <;> simp [h, hs, hc]

theorem sendUserMessage_blank (user : Option Nat) (ncid t0 t1 : Nat)
    (pr : Except Unit ChatResponse) (text : String) (st : ChatState)
    (he : (trimmed text).isEmpty = true) :
    sendUserMessage user ncid t0 t1 pr text st = (st, []) := by
  unfold sendUserMessage
  simp [he]

theorem sendUserMessage_error_messages (user : Option Nat) (ncid t0 t1 : Nat)
    (text : String) (st : ChatState) (hne : (trimmed text).isEmpty = false) :
    (sendUserMessage user ncid t0 t1 (Except.error ()) text st).1.messages =
      st.messages ++ [mkUserMessage t0 text, mkErrorMessage t1] := by
  unfold sendUserMessage
  simp [hne, addMessage_fst_messages]

theorem sendUserMessage_okEmpty_messages (user : Option Nat) (ncid t0 t1 : Nat)
    (r : ChatResponse) (text : String) (st : ChatState)
    (hne : (trimmed text).isEmpty = false) (hi : r.interpretations = []) :
    (sendUserMessage user ncid t0 t1 (Except.ok r) text st).1.messages =
      st.messages ++ [mkUserMessage t0 text, mkErrorMessage t1] := by
  unfold sendUserMessage
  simp [hne, hi, addMessage_fst_messages]

theorem sendUserMessage_ok_messages (user : Option Nat) (ncid t0 t1 : Nat)
    (r : ChatResponse) (interp : Interpretation) (rest : List Interpretation)
    (text : String) (st : ChatState)
    (hne : (trimmed text).isEmpty = false) (hi : r.interpretations = interp :: rest) :
    (sendUserMessage user ncid t0 t1 (Except.ok r) text st).1.messages =
      st.messages ++ [mkUserMessage t0 text, mkBotMessage t1 r interp] ++ verseList t1 r := by
  unfold sendUserMessage
  cases hcs : chosenScripture r with
  | none =>
    simp [hne, hi, hcs, addMessage_fst_messages, updateSummaryStep_fst_messages, verseList]
  | some s =>
    simp [hne, hi, hcs, addMessage_fst_messages, updateSummaryStep_fst_messages, verseList]

theorem sendUserMessage_isLoading_false (user : Option Nat) (ncid t0 t1 : Nat)
    (pr : Except Unit ChatResponse) (text : String) (st : ChatState)
    (hne : (trimmed text).isEmpty = false) :
    (sendUserMessage user ncid t0 t1 pr text st).1.isLoading = false := by
  unfold sendUserMessage
  cases pr with
  | error e => simp [hne]
  | ok r =>
    cases hi : r.interpretations with
    | nil => simp [hne, hi]
    | cons interp rest => cases hcs : chosenScripture r <;> simp [hne, hi, hcs]

theorem verseList_length (t1 : Nat) (r : ChatResponse) :
    (verseList t1 r).length = if (chosenScripture r).isSome then 1 else 0 := by
  unfold verseList
  cases h : chosenScripture r <;> simp

theorem find?_renameFirst (cid : Nat) (title : String) (cs : List Conversation) :
    ∀ conv : Conversation,
      cs.find? (fun c => c.id == cid) = some conv →
      (renameFirst cid title cs).find? (fun c => c.id == cid) =
        some { conv with summary := title } := by
  induction cs with
  | nil => intro conv h; simp at h
  | cons c rest ih =>
    intro conv h
    cases hc : (c.id == cid) with
    | true =>
      simp only [List.find?, hc] at h
      cases h
      unfold renameFirst
      rw [if_pos hc]
      simp only [List.find?, hc]
    | false =>
      simp only [List.find?, hc] at h
      unfold renameFirst
      rw [if_neg (by simp [hc])]
      simp only [List.find?, hc]
      exact ih conv h

theorem activeSummary_set_isLoading (st : ChatState) (b : Bool) :
    activeSummary { st with isLoading := b } = activeSummary st := rfl

theorem activeSummary_set_messages (st : ChatState) (ms : List Message) (b : Bool) :
    activeSummary { st with messages := ms, isLoading := b } = activeSummary st := rfl

theorem updateSummaryStep_fst_frame (text : String) (st : ChatState)
    (h : activeSummary st ≠ some "New Conversation") :
    (updateSummaryStep text st).1 = st := by
  unfold updateSummaryStep
  cases hc : st.conversationId with
  | none => rfl
  | some cid =>
    cases hf : st.conversations.find? (fun c => c.id == cid) with
    | none => simp [hf]
    | some conv =>
      have hs : conv.summary ≠ "New Conversation" := by
        intro hq
        apply h
        unfold activeSummary
        rw [hc]
        simp [hf, hq]
      simp [hf, hs]

theorem updateSummaryStep_eq_set (text : String) (st : ChatState) (cid : Nat)
    (conv : Conversation) (hcid : st.conversationId = some cid)
    (hfind : st.conversations.find? (fun c => c.id == cid) = some conv)
    (hph : conv.summary = "New Conversation") :
    updateSummaryStep text st =
      ({ st with conversations := renameFirst cid (newTitle text) st.conversations },
       [Effect.updateSummary cid (newTitle text)]) := by
  unfold updateSummaryStep
  rw [hcid]
  simp [hfind, hph]

theorem updateSummaryStep_fst_set (text : String) (st : ChatState) (cid : Nat)
    (conv : Conversation) (hcid : st.conversationId = some cid)
    (hfind : st.conversations.find? (fun c => c.id == cid) = some conv)
    (hph : conv.summary = "New Conversation") :
    activeSummary (updateSummaryStep text st).1 = some (newTitle text) := by
  rw [updateSummaryStep_eq_set text st cid conv hcid hfind hph]
  unfold activeSummary
  simp only [hcid]
  rw [find?_renameFirst cid (newTitle text) st.conversations conv hfind]
  rfl

theorem newTitle_length_le (text : String) : (newTitle text).length ≤ 33 := by
  unfold newTitle
  split
  · rename_i h
    have h1 : (text.data.take 30).length ≤ 30 := text.data.length_take_le 30
    have h2 : (String.mk (text.data.take 30) ++ "...").length
        = (text.data.take 30).length + 3 := by
      rw [String.length_append]
      rfl
    rw [h2]
    omega
  · rename_i h
    omega

theorem sendUserMessage_error_fst_of_some (user : Option Nat) (ncid t0 t1 : Nat)
    (text : String) (st : ChatState) (cid : Nat)
    (hne : (trimmed text).isEmpty = false) (hcid : st.conversationId = some cid) :
    (sendUserMessage user ncid t0 t1 (Except.error ()) text st).1 =
      { st with
          messages := st.messages ++ [mkUserMessage t0 text, mkErrorMessage t1],
          isLoading := false } := by
  unfold sendUserMessage
  cases user <;> simp [hne, addMessage, hcid]

theorem sendUserMessage_okEmpty_fst_of_some (user : Option Nat) (ncid t0 t1 : Nat)
    (r : ChatResponse) (text : String) (st : ChatState) (cid : Nat)
    (hne : (trimmed text).isEmpty = false) (hi : r.interpretations = [])
    (hcid : st.conversationId = some cid) :
    (sendUserMessage user ncid t0 t1 (Except.ok r) text st).1 =
      { st with
          messages := st.messages ++ [mkUserMessage t0 text, mkErrorMessage t1],
          isLoading := false } := by
  unfold sendUserMessage
  cases user <;> simp [hne, hi, addMessage, hcid]

theorem sendUserMessage_ok_fst_of_some (user : Option Nat) (ncid t0 t1 : Nat)
    (r : ChatResponse) (interp : Interpretation) (rest : List Interpretation)
    (text : String) (st : ChatState) (cid : Nat)
    (hne : (trimmed text).isEmpty = false) (hi : r.interpretations = interp :: rest)
    (hcid : st.conversationId = some cid) :
    (sendUserMessage user ncid t0 t1 (Except.ok r) text st).1 =
      { (updateSummaryStep text { st with
          messages := st.messages ++ [mkUserMessage t0 text, mkBotMessage t1 r interp]
            ++ verseList t1 r,
          isLoading := true }).1 with isLoading := false } := by
  unfold sendUserMessage
  cases hcs : chosenScripture r with
  | none => cases user <;> simp [hne, hi, hcs, verseList, addMessage, hcid]
  | some s => cases user <;> simp [hne, hi, hcs, verseList, addMessage, hcid]

theorem sendUserMessage_conversationId_of_some (user : Option Nat) (ncid t0 t1 : Nat)
    (pr : Except Unit ChatResponse) (text : String) (st : ChatState) (cid : Nat)
    (hcid : st.conversationId = some cid) :
    (sendUserMessage user ncid t0 t1 pr text st).1.conversationId = some cid := by
  by_cases he : (trimmed text).isEmpty
  · rw [sendUserMessage_blank user ncid t0 t1 pr text st he]
    exact hcid
  · have hne : (trimmed text).isEmpty = false := by simpa using he
    cases pr with
    | error e =>
      cases e
      rw [sendUserMessage_error_fst_of_some user ncid t0 t1 text st cid hne hcid]
      exact hcid
    | ok r =>
      cases hi : r.interpretations with
      | nil =>
        rw [sendUserMessage_okEmpty_fst_of_some user ncid t0 t1 r text st cid hne hi hcid]
        exact hcid
      | cons interp rest =>
        rw [sendUserMessage_ok_fst_of_some user ncid t0 t1 r interp rest text st cid hne hi hcid]
        simp [updateSummaryStep_fst_conversationId, hcid]

theorem sendUserMessage_conversations_frame (user : Option Nat) (ncid t0 t1 : Nat)
    (pr : Except Unit ChatResponse) (text : String) (st : ChatState) (cid : Nat)
    (hcid : st.conversationId = some cid)
    (hact : activeSummary st ≠ some "New Conversation") :
    (sendUserMessage user ncid t0 t1 pr text st).1.conversations = st.conversations := by
  by_cases he : (trimmed text).isEmpty
  · rw [sendUserMessage_blank user ncid t0 t1 pr text st he]
  · have hne : (trimmed text).isEmpty = false := by simpa using he
    cases pr with
    | error e =>
      cases e
      rw [sendUserMessage_error_fst_of_some user ncid t0 t1 text st cid hne hcid]
    | ok r =>
      cases hi : r.interpretations with
      | nil =>
        rw [sendUserMessage_okEmpty_fst_of_some user ncid t0 t1 r text st cid hne hi hcid]
      | cons interp rest =>
        rw [sendUserMessage_ok_fst_of_some user ncid t0 t1 r interp rest text st cid hne hi hcid]
        rw [updateSummaryStep_fst_frame text
          { st with
              messages := st.messages ++ [mkUserMessage t0 text, mkBotMessage t1 r interp]
                ++ verseList t1 r,
              isLoading := true } hact]

theorem sendUserMessage_summary_set (user : Option Nat) (ncid t0 t1 : Nat)
    (r : ChatResponse) (interp : Interpretation) (rest : List Interpretation)
    (text : String) (st : ChatState) (cid : Nat) (conv : Conversation)
    (hne : (trimmed text).isEmpty = false) (hi : r.interpretations = interp :: rest)
    (hcid : st.conversationId = some cid)
    (hfind : st.conversations.find? (fun c => c.id == cid) = some conv)
    (hph : conv.summary = "New Conversation") :
    activeSummary (sendUserMessage user ncid t0 t1 (Except.ok r) text st).1 =
      some (newTitle text) := by
  rw [sendUserMessage_ok_fst_of_some user ncid t0 t1 r interp rest text st cid hne hi hcid]
  rw [activeSummary_set_isLoading]
  exact updateSummaryStep_fst_set text
    { st with
        messages := st.messages ++ [mkUserMessage t0 text, mkBotMessage t1 r interp]
          ++ verseList t1 r,
        isLoading := true } cid conv hcid hfind hph

theorem handleChat_limited (apiKey : Option String) (hits : Nat) (q : String)
    (up : Except Unit ChatResponse) (h : rateMax ≤ hits) :
    handleChat apiKey hits q up =
      ({ status := 429, body := ChatBody.failure rateLimitMessage }, false) := by
  unfold handleChat
  rw [if_pos h]

theorem handleChat_status_not_limited (apiKey : Option String) (hits : Nat) (q : String)
    (up : Except Unit ChatResponse) (h : ¬ rateMax ≤ hits) :
    (handleChat apiKey hits q up).1.status = 200 ∨
      (handleChat apiKey hits q up).1.status = 500 := by
  unfold handleChat
  rw [if_neg h]
  by_cases hk : apiKey = none ∨ apiKey = some placeholderKey
  · rw [if_pos hk]
    left
    rfl
  · rw [if_neg hk]
    cases up with
    | ok r => left; rfl
    | error e => right; rfl

theorem servedCount_cons_rejected (x : HttpResponse × Bool)
    (l : List (HttpResponse × Bool)) (h : x.1.status = 429) :
    servedCount (x :: l) = servedCount l := by
  unfold servedCount
  simp [List.filter_cons, h]

theorem servedCount_cons_served (x : HttpResponse × Bool)
    (l : List (HttpResponse × Bool)) (h : x.1.status ≠ 429) :
    servedCount (x :: l) = 1 + servedCount l := by
  unfold servedCount
  simp [List.filter_cons, h, Nat.add_comm]

theorem servedCount_runRequests_le (apiKey : Option String)
    (up : Except Unit ChatResponse) (qs : List String) :
    ∀ hits : Nat, servedCount (runRequests apiKey up qs hits) ≤ rateMax - hits := by
  induction qs with
  | nil => intro hits; simp [runRequests, servedCount]
  | cons q rest ih =>
    intro hits
    have hrun : runRequests apiKey up (q :: rest) hits =
        handleChat apiKey hits q up :: runRequests apiKey up rest (hits + 1) := rfl
    rw [hrun]
    have hle := ih (hits + 1)
    by_cases h : rateMax ≤ hits
    · rw [servedCount_cons_rejected _ _ (by rw [handleChat_limited apiKey hits q up h])]
      simp only [rateMax] at hle ⊢
      omega
    · have hs : (handleChat apiKey hits q up).1.status ≠ 429 := by
        rcases handleChat_status_not_limited apiKey hits q up h with hs | hs <;>
          rw [hs] <;> decide
      rw [servedCount_cons_served _ _ hs]
      simp only [rateMax] at hle h ⊢
      omega

/-! Claims. -/

/-- C1: for every input text whose trimmed form is non-empty,
`sendUserMessage(text)` grows the session message list by at least 1 (the
user message); and when the proxy call succeeds with a response carrying
at least one interpretation (the shape the proxy contract guarantees), it
grows by exactly 2 more messages when a scripture citation is present
(explanation plus verse) and by exactly 1 more when none is (explanation
only) — a total growth of 3 or 2. -/
theorem sendUserMessage_growth (user : Option Nat) (ncid t0 t1 : Nat)
    (pr : Except Unit ChatResponse) (text : String) (st : ChatState)
    (hne : (trimmed text).isEmpty = false) :
    st.messages.length + 1 ≤
      (sendUserMessage user ncid t0 t1 pr text st).1.messages.length ∧
    (∀ r interp rest, pr = Except.ok r → r.interpretations = interp :: rest →
      (sendUserMessage user ncid t0 t1 pr text st).1.messages.length =
        st.messages.length + (if (chosenScripture r).isSome then 3 else 2)) := by
  constructor
  · cases pr with
    | error e =>
      cases e
      rw [sendUserMessage_error_messages user ncid t0 t1 text st hne]
      simp
    | ok r =>
      cases hi : r.interpretations with
      | nil =>
        rw [sendUserMessage_okEmpty_messages user ncid t0 t1 r text st hne hi]
        simp
      | cons interp rest =>
        rw [sendUserMessage_ok_messages user ncid t0 t1 r interp rest text st hne hi]
        simp
  · intro r interp rest hpr hi
    subst hpr
    rw [sendUserMessage_ok_messages user ncid t0 t1 r interp rest text st hne hi]
    rw [List.length_append, List.length_append, verseList_length]
    cases h : chosenScripture r <;> simp [h]

/-- Witness for C1 at a concrete input: sending "hello" on an empty
session with a one-interpretation, no-scripture response grows the
message list from 0 to 2. -/
theorem sendUserMessage_growth_witness :
    (trimmed "hello").isEmpty = false ∧
    (sendUserMessage none 1 0 1 (Except.ok sampleResponse) "hello"
      emptyState).1.messages.length = emptyState.messages.length + 2 := by
  constructor
  · decide
  · have h := (sendUserMessage_growth none 1 0 1 (Except.ok sampleResponse) "hello"
      emptyState (by decide)).2 sampleResponse sampleInterp [] rfl rfl
    simpa using h

/-- C2 counterexample: with no upstream credential, `POST /api/chat`
returns the mock response, whose single interpretation carries no
`scriptures` list at all — so the response does not satisfy the success
schema documented in the spec (each interpretation must carry a
`scriptures` list of citation objects). -/
theorem mock_shape_counterexample :
    (handleChat none 0 "What does Psalm 23 mean?" (Except.error ())).1 =
      { status := 200,
        body := ChatBody.success (mockResponse "What does Psalm 23 mean?") } ∧
    ¬ specSuccessShape (mockResponse "What does Psalm 23 mean?") := by
  constructor
  · rfl
  · decide

/-- C2 amended: with no upstream credential, `POST /api/chat` returns
status 200 with the canned mock body, which satisfies the shape the live
path's prompt template actually mandates (interpretations with
`tradition` and `view`, a top-level `primary_scripture` with reference,
text and translation, context and application) — not the per-
interpretation `scriptures` schema the spec documents; the client reads
the verse from `primary_scripture` for this shape. -/
theorem mock_matches_live_shape (q : String) (up : Except Unit ChatResponse) :
    (handleChat none 0 q up).1.status = 200 ∧
    (handleChat none 0 q up).1.body = ChatBody.success (mockResponse q) ∧
    promptTemplateShape (mockResponse q) = true := by
  exact ⟨rfl, rfl, rfl⟩

/-- C3: when the response's first interpretation has an absent or empty
`scriptures` array but a top-level `primary_scripture` is present,
`sendUserMessage` still appends a verse message built from that
scripture's text, reference and translation, carrying the is-verse
metadata marker. -/
theorem verse_from_primary_scripture (user : Option Nat) (ncid t0 t1 : Nat)
    (r : ChatResponse) (interp : Interpretation) (rest : List Interpretation)
    (s : Scripture) (text : String) (st : ChatState)
    (hne : (trimmed text).isEmpty = false)
    (hi : r.interpretations = interp :: rest)
    (hs : interp.scriptures = none ∨ interp.scriptures = some [])
    (hp : r.primary_scripture = some s) :
    (sendUserMessage user ncid t0 t1 (Except.ok r) text st).1.messages =
      st.messages ++ [mkUserMessage t0 text, mkBotMessage t1 r interp,
        mkVerseMessage t1 s] ∧
    (mkVerseMessage t1 s).data = some MsgData.isVerse ∧
    (mkVerseMessage t1 s).text =
      "\"" ++ s.text ++ "\"\n\n— " ++ s.reference ++ " ("
        ++ s.translation.getD "" ++ ")" := by
  have hcs : chosenScripture r = some s := by
    unfold chosenScripture
    rw [hi]
    rcases hs with h | h <;> simp [h, hp]
  refine ⟨?_, rfl, rfl⟩
  rw [sendUserMessage_ok_messages user ncid t0 t1 r interp rest text st hne hi]
  simp [verseList, hcs]

/-- Witness for C3 at a concrete input: the legacy/mock-shaped response
(empty per-interpretation scriptures, top-level primary scripture) yields
user, explanation and verse messages. -/
theorem verse_from_primary_scripture_witness :
    (trimmed "hi").isEmpty = false ∧
    (sendUserMessage none 1 0 1 (Except.ok legacyResponse) "hi"
      emptyState).1.messages =
      emptyState.messages ++ [mkUserMessage 0 "hi",
        mkBotMessage 1 legacyResponse legacyInterp, mkVerseMessage 1 legacyScripture] := by
  constructor
  · decide
  · exact (verse_from_primary_scripture none 1 0 1 legacyResponse legacyInterp []
      legacyScripture "hi" emptyState (by decide) rfl (Or.inr rfl) rfl).1

/-- C4 counterexample: the claim says a second message on the same
conversation never changes the summary again, but when the first
message's text is literally "New Conversation" the guarded update writes
the placeholder value back, so the summary is still the placeholder and a
second message ("hello") changes it again. -/
theorem summary_second_change_counterexample :
    degenerateAfterFirst.conversations.map Conversation.summary =
      ["New Conversation"] ∧
    degenerateAfterSecond.conversations.map Conversation.summary = ["hello"] := by
  constructor
  · decide
  · decide

/-- C4 amended: `sendUserMessage` updates a conversation's summary only
while it still equals the placeholder "New Conversation", setting it to
the question text truncated to at most 33 characters (30 plus "..."); and
provided that truncation is not itself the placeholder text, a second
message on the same conversation never changes the conversation list
(hence the summary) again. -/
theorem conversation_summary_once (user user2 : Option Nat)
    (ncid ncid2 t0 t1 t2 t3 : Nat) (r : ChatResponse) (interp : Interpretation)
    (rest : List Interpretation) (pr2 : Except Unit ChatResponse)
    (text text2 : String) (st : ChatState) (cid : Nat) (conv : Conversation)
    (hne : (trimmed text).isEmpty = false) (hi : r.interpretations = interp :: rest)
    (hcid : st.conversationId = some cid)
    (hfind : st.conversations.find? (fun c => c.id == cid) = some conv)
    (hph : conv.summary = "New Conversation")
    (hdg : newTitle text ≠ "New Conversation") :
    (newTitle text).length ≤ 33 ∧
    activeSummary (sendUserMessage user ncid t0 t1 (Except.ok r) text st).1 =
      some (newTitle text) ∧
    (sendUserMessage user2 ncid2 t2 t3 pr2 text2
        (sendUserMessage user ncid t0 t1 (Except.ok r) text st).1).1.conversations =
      (sendUserMessage user ncid t0 t1 (Except.ok r) text st).1.conversations := by
  have h1 := sendUserMessage_summary_set user ncid t0 t1 r interp rest text st cid conv
    hne hi hcid hfind hph
  refine ⟨newTitle_length_le text, h1, ?_⟩
  have hcid1 := sendUserMessage_conversationId_of_some user ncid t0 t1
    (Except.ok r) text st cid hcid
  exact sendUserMessage_conversations_frame user2 ncid2 t2 t3 pr2 text2 _ cid hcid1
    (by rw [h1]; simp [hdg])

/-- Witness for the amended C4 at a concrete input: a first send of
"hello" on a placeholder conversation sets the summary to `newTitle
"hello"`. -/
theorem conversation_summary_once_witness :
    (trimmed "hello").isEmpty = false ∧
    activeSummary (sendUserMessage (some 7) 1 0 1 (Except.ok sampleResponse)
      "hello" placeholderState).1 = some (newTitle "hello") := by
  constructor
  · decide
  · exact (conversation_summary_once (some 7) (some 7) 1 1 0 1 2 3 sampleResponse
      sampleInterp [] (Except.ok sampleResponse) "hello" "bye" placeholderState 1
      { id := 1, user_id := 7, summary := "New Conversation" }
      (by decide) rfl rfl rfl rfl (by decide)).2.1

/-- C5: at most `rateMax` (10) requests per caller are served within one
rate-limit window; a request arriving when the caller already made 10 or
more requests in the window receives HTTP 429 with the configured error
message, and the upstream model is not invoked for it. -/
theorem chat_rate_limit (apiKey : Option String) (up : Except Unit ChatResponse)
    (hits : Nat) (q : String) (qs : List String) (h : rateMax ≤ hits) :
    handleChat apiKey hits q up =
      ({ status := 429, body := ChatBody.failure rateLimitMessage }, false) ∧
    (handleChat apiKey hits q up).2 = false ∧
    servedCount (runRequests apiKey up qs 0) ≤ rateMax := by
  refine ⟨handleChat_limited apiKey hits q up h, ?_, ?_⟩
  · rw [handleChat_limited apiKey hits q up h]
  · have hb := servedCount_runRequests_le apiKey up qs 0
    simpa using hb

/-- Witness for C5 at a concrete input: the 11th request (10 prior hits)
is rejected with 429 and does not invoke the upstream model. -/
theorem chat_rate_limit_witness :
    rateMax ≤ 10 ∧
    handleChat none 10 "q" (Except.error ()) =
      ({ status := 429, body := ChatBody.failure rateLimitMessage }, false) :=
  ⟨by decide, (chat_rate_limit none (Except.error ()) 10 "q" [] (by decide)).1⟩

/-- C6: for every non-empty text, the loading flag is cleared at the end
of `sendUserMessage` in all cases, and on proxy failure exactly one
apologetic bot message is appended after the user message — with no
metadata, sender bot, and the fixed fallback text — instead of a raw
error; the embedding of `sendUserMessage` as a total function reflects
that no exception escapes the store boundary. -/
theorem sendUserMessage_failure_handling (user : Option Nat) (ncid t0 t1 : Nat)
    (pr : Except Unit ChatResponse) (text : String) (st : ChatState)
    (hne : (trimmed text).isEmpty = false) :
    (sendUserMessage user ncid t0 t1 pr text st).1.isLoading = false ∧
    (sendUserMessage user ncid t0 t1 (Except.error ()) text st).1.messages =
      st.messages ++ [mkUserMessage t0 text, mkErrorMessage t1] ∧
    (mkErrorMessage t1).data = none ∧
    (mkErrorMessage t1).sender = Sender.bot ∧
    (mkErrorMessage t1).text = fallbackText :=
  ⟨sendUserMessage_isLoading_false user ncid t0 t1 pr text st hne,
    sendUserMessage_error_messages user ncid t0 t1 text st hne, rfl, rfl, rfl⟩

/-- Witness for C6 at a concrete input: a failed proxy call on an empty
session leaves exactly the user message and the fallback message, with
loading cleared. -/
theorem sendUserMessage_failure_handling_witness :
    (trimmed "help").isEmpty = false ∧
    ((sendUserMessage none 1 0 1 (Except.error ()) "help" emptyState).1.isLoading
        = false ∧
      (sendUserMessage none 1 0 1 (Except.error ()) "help" emptyState).1.messages =
        emptyState.messages ++ [mkUserMessage 0 "help", mkErrorMessage 1]) := by
  constructor
  · decide
  · have h := sendUserMessage_failure_handling none 1 0 1 (Except.error ()) "help"
      emptyState (by decide)
    exact ⟨h.1, h.2.1⟩

/-- C7: within one successful `sendUserMessage` call the appended segment
is exactly user message, then explanation message, then (possibly) verse
message — so the user message precedes every bot message and the
explanation precedes the verse — and the verse message's synthesized
timestamp (t1 + 100) is strictly greater than the explanation's (t1). -/
theorem sendUserMessage_ordering (user : Option Nat) (ncid t0 t1 : Nat)
    (r : ChatResponse) (interp : Interpretation) (rest : List Interpretation)
    (text : String) (st : ChatState)
    (hne : (trimmed text).isEmpty = false) (hi : r.interpretations = interp :: rest) :
    (sendUserMessage user ncid t0 t1 (Except.ok r) text st).1.messages =
      st.messages ++ [mkUserMessage t0 text, mkBotMessage t1 r interp]
        ++ verseList t1 r ∧
    (mkUserMessage t0 text).sender = Sender.user ∧
    (mkBotMessage t1 r interp).sender = Sender.bot ∧
    (∀ s : Scripture,
      (mkBotMessage t1 r interp).timestamp < (mkVerseMessage t1 s).timestamp) := by
  refine ⟨sendUserMessage_ok_messages user ncid t0 t1 r interp rest text st hne hi,
    rfl, rfl, ?_⟩
  intro s
  show t1 < t1 + 100
  omega

/-- Witness for C7 at a concrete input: the legacy-shaped response yields
the segment [user, explanation, verse] with the verse timestamp after the
explanation's. -/
theorem sendUserMessage_ordering_witness :
    (trimmed "hi").isEmpty = false ∧
    (sendUserMessage none 1 0 1 (Except.ok legacyResponse) "hi"
      emptyState).1.messages =
      emptyState.messages ++ [mkUserMessage 0 "hi",
          mkBotMessage 1 legacyResponse legacyInterp]
        ++ verseList 1 legacyResponse := by
  constructor
  · decide
  · exact (sendUserMessage_ordering none 1 0 1 legacyResponse legacyInterp [] "hi"
      emptyState (by decide) rfl).1

/-- C8: `loadConversation(id)` first resets the session to an empty list
with loading set and the conversation id installed, then replaces the
message list with exactly the persisted messages for `id` — all rows with
that conversation id, ordered ascending by creation time, with text and
sender preserved by the row-to-UI mapping — and clears the loading
flag. -/
theorem loadConversation_replaces (db : List DBMessage) (conversationId : Nat)
    (st : ChatState) :
    (loadConversationStart conversationId st).messages = [] ∧
    (loadConversationStart conversationId st).isLoading = true ∧
    (loadConversationStart conversationId st).conversationId = some conversationId ∧
    (loadConversation db conversationId st).messages =
      (queryMessages db conversationId).map formatMessage ∧
    (loadConversation db conversationId st).conversationId = some conversationId ∧
    (loadConversation db conversationId st).isLoading = false ∧
    (queryMessages db conversationId).Perm
      (db.filter (fun m => m.conversation_id == conversationId)) ∧
    List.Sorted createdLE (queryMessages db conversationId) ∧
    (∀ m ∈ queryMessages db conversationId, m.conversation_id = conversationId) ∧
    (∀ m : DBMessage, (formatMessage m).text = m.text ∧
      (formatMessage m).sender = m.sender ∧
      (formatMessage m).timestamp = m.created_at) := by
  refine ⟨rfl, rfl, rfl, rfl, rfl, rfl, ?_, ?_, ?_, fun m => ⟨rfl, rfl, rfl⟩⟩
  · exact List.perm_insertionSort createdLE _
  · exact List.sorted_insertionSort createdLE _
  · intro m hm
    have hmem := (List.perm_insertionSort createdLE
      (db.filter (fun m => m.conversation_id == conversationId))).subset hm
    have hf := List.mem_filter.mp hmem
    simpa using hf.2

/-- C9: for empty or whitespace-only input, `sendUserMessage` is a
complete no-op — the returned state is the input state (message list,
loading flag, conversation id and conversation list unchanged) and no
effect (persistence or proxy call) is produced. -/
theorem sendUserMessage_blank_noop (user : Option Nat) (ncid t0 t1 : Nat)
    (pr : Except Unit ChatResponse) (text : String) (st : ChatState)
    (he : (trimmed text).isEmpty = true) :
    sendUserMessage user ncid t0 t1 pr text st = (st, []) := by
  unfold sendUserMessage
  simp [he]

/-- Witness for C9 at a concrete input: a whitespace-only text leaves the
state untouched and produces no effects. -/
theorem sendUserMessage_blank_noop_witness :
    (trimmed "   ").isEmpty = true ∧
    sendUserMessage none 1 0 1 (Except.error ()) "   " emptyState =
      (emptyState, []) :=
  ⟨by decide,
    sendUserMessage_blank_noop none 1 0 1 (Except.error ()) "   " emptyState (by decide)⟩

/-- C10: `deleteConversation(id)` removes the conversation with that id
from the local conversations list; when `id` is the active conversation
it also clears the message list and nulls the active id, and when it is
not, messages, active id and loading flag are left unchanged. -/
theorem deleteConversation_frame (conversationId : Nat) (st : ChatState) :
    (deleteConversation conversationId st).conversations =
      st.conversations.filter (fun c => c.id != conversationId) ∧
    (st.conversationId = some conversationId →
      (deleteConversation conversationId st).messages = [] ∧
      (deleteConversation conversationId st).conversationId = none) ∧
    (st.conversationId ≠ some conversationId →
      (deleteConversation conversationId st).messages = st.messages ∧
      (deleteConversation conversationId st).conversationId = st.conversationId ∧
      (deleteConversation conversationId st).isLoading = st.isLoading) := by
  unfold deleteConversation
  refine ⟨rfl, fun h => ?_, fun h => ?_⟩
  · simp [h]
  · simp [h]

/-- Witness for C10 at a concrete input: deleting the active conversation
clears the message list and nulls the active id. -/
theorem deleteConversation_frame_witness :
    delState.conversationId = some 1 ∧
    ((deleteConversation 1 delState).messages = [] ∧
      (deleteConversation 1 delState).conversationId = none) :=
  ⟨rfl, (deleteConversation_frame 1 delState).2.1 rfl⟩

end StillWaters
